import Mathlib

/-!
Verification of `MaskedLanguageModelingReader`
(`allennlp/data/dataset_readers/masked_language_modeling.py`).

Shallow embedding conventions:
* A Python `Token` is a record with a `text` string (only the `text`
  attribute is observed by this code).
* Optional Python arguments defaulting to `None` are `Option` values.
* `Instance` models the returned bundle: the `TextField` over the input
  tokens, the `ListField[IndexField]` of mask positions (kept as the raw
  integer indices into the token sequence, as the source computes them),
  and the `TextField` over the target tokens.  The token-indexer
  configuration is opaque and never observed by the claims, so it is not
  modelled.
* Exceptions become `Except MLMError`: the two `ValueError`s of
  `text_to_instance`, the `TypeError` that Python raises at line 82 when
  iterating `targets = None`, and the `NotImplementedError` of `_read`.
-/

/-- A token: an opaque unit of text with a `text` attribute. -/
structure Token where
  text : String
deriving DecidableEq, Repr

/-- The errors the reader can raise.
* `noMask` is `ValueError("No [MASK] tokens found!")` (line 78).
* `targetCountMismatch m k` is
  `ValueError(f"Found {m} mask tokens and {k} targets")` (line 80).
* `noneNotIterable` is the `TypeError` Python raises at line 82 when the
  comprehension `[Token(target) for target in targets]` iterates
  `targets = None`.
* `notImplemented` is the `NotImplementedError` raised by `_read`. -/
inductive MLMError where
  | noMask : MLMError
  | targetCountMismatch : Nat → Nat → MLMError
  | noneNotIterable : MLMError
  | notImplemented : MLMError
deriving DecidableEq, Repr

/-- The bundle returned by `text_to_instance`: the three named fields
`tokens`, `mask_positions` and `target_ids`. -/
structure Instance where
  tokens : List Token
  mask_positions : List Nat
  target_ids : List Token
deriving DecidableEq, Repr

instance : DecidableEq (Except MLMError Instance) := fun a b =>
  match a, b with
  | Except.ok x, Except.ok y =>
      if h : x = y then isTrue (by rw [h])
      else isFalse (by intro hh; cases hh; exact h rfl)
  | Except.error x, Except.error y =>
      if h : x = y then isTrue (by rw [h])
      else isFalse (by intro hh; cases hh; exact h rfl)
  | Except.ok _, Except.error _ => isFalse (by intro hh; cases hh)
  | Except.error _, Except.ok _ => isFalse (by intro hh; cases hh)

/-- The loop of lines 73-76 with its running counter:
`for i, token in enumerate(tokens): if token.text == '[MASK]':
mask_positions.append(i)`, started at index `i`. -/
def maskPositionsFrom (i : Nat) : List Token → List Nat
  | [] => []
  | t :: ts =>
      if t.text = "[MASK]" then i :: maskPositionsFrom (i + 1) ts
      else maskPositionsFrom (i + 1) ts

/-- The full scan of lines 73-76: the indices of all `"[MASK]"` tokens,
left to right, zero-based. -/
def maskPositions (tokens : List Token) : List Nat :=
  maskPositionsFrom 0 tokens

/-- Accumulator pass of the whitespace splitter: `cur` holds the characters
of the current in-progress word, most recent first; a whitespace character
ends the current word (dropping empty words), and the end of input flushes
the last word. -/
def wsSplit : List Char → List Char → List String
  | [], cur => if cur = [] then [] else [⟨cur.reverse⟩]
  | c :: cs, cur =>
      if c.isWhitespace then
        if cur = [] then wsSplit cs []
        else ⟨cur.reverse⟩ :: wsSplit cs []
      else wsSplit cs (c :: cur)

/-- Modelled from the spec: the default tokenizer
(`WordTokenizer(word_splitter=JustSpacesWordSplitter())`, line 45) is not
under `src/`; the spec describes it as a whitespace-only splitter whose
tokens are exactly the whitespace-delimited substrings, with no sub-word
splitting and no normalization. -/
def whitespaceTokenize (sentence : String) : List Token :=
  (wsSplit sentence.data []).map Token.mk

/-- The reader.  Its only state observable through the claims is the
configured tokenizer (line 45); the token-indexer configuration and the
`lazy` flag are never observed by `text_to_instance` or `_read`. -/
structure MaskedLanguageModelingReader where
  tokenizer : String → List Token

/-- The default-constructed reader (`MaskedLanguageModelingReader()`):
`tokenizer or WordTokenizer(word_splitter=JustSpacesWordSplitter())`. -/
def defaultReader : MaskedLanguageModelingReader :=
  { tokenizer := whitespaceTokenize }

/-- Line 70-71: `if not tokens: tokens = self._tokenizer.tokenize(sentence)`.
Python truthiness: both `None` and the empty list fall back to the
tokenizer. -/
def effectiveTokens (r : MaskedLanguageModelingReader) (sentence : String)
    (tokens : Option (List Token)) : List Token :=
  match tokens with
  | none => r.tokenizer sentence
  | some ts => if ts.isEmpty then r.tokenizer sentence else ts

/-- Lines 70-85 of `MaskedLanguageModelingReader.text_to_instance`.
The checks appear in source order: the no-mask check (line 77), the
target-count check (line 79, guarded by Python truthiness of `targets`,
so skipped when `targets` is `None` or `[]`), then the construction of
`target_field` (line 82), which raises `TypeError` when `targets` is
`None`. -/
def MaskedLanguageModelingReader.text_to_instance
    (r : MaskedLanguageModelingReader) (sentence : String)
    (tokens : Option (List Token)) (targets : Option (List String)) :
    Except MLMError Instance :=
  let toks := effectiveTokens r sentence tokens
  let mask_positions := maskPositions toks
  if mask_positions.isEmpty then
    Except.error MLMError.noMask
  else
    match targets with
    | some ts =>
        if ts ≠ [] ∧ ts.length ≠ mask_positions.length then
          Except.error (MLMError.targetCountMismatch mask_positions.length ts.length)
        else
          Except.ok { tokens := toks, mask_positions := mask_positions,
                      target_ids := ts.map Token.mk }
    | none => Except.error MLMError.noneNotIterable

/-- Lines 48-50: `def _read(self, file_path): raise NotImplementedError`. -/
def MaskedLanguageModelingReader._read (r : MaskedLanguageModelingReader)
    (file_path : String) : Except MLMError (List Instance) :=
  Except.error MLMError.notImplemented

/-! ### Lemmas about the mask-position scan -/

theorem maskPositionsFrom_le (ts : List Token) :
    ∀ n : Nat, ∀ i ∈ maskPositionsFrom n ts, n ≤ i := by
  induction ts with
  | nil => intro n i hi; simp [maskPositionsFrom] at hi
  | cons t ts ih =>
      intro n i hi
      simp only [maskPositionsFrom] at hi
      split at hi
      · rcases List.mem_cons.mp hi with h | h
        · exact Nat.le_of_eq h.symm
        · exact Nat.le_of_succ_le (ih (n + 1) i h)
      · exact Nat.le_of_succ_le (ih (n + 1) i hi)

theorem maskPositionsFrom_pairwise (ts : List Token) :
    ∀ n : Nat, (maskPositionsFrom n ts).Pairwise (· < ·) := by
  induction ts with
  | nil => intro n; simp [maskPositionsFrom]
  | cons t ts ih =>
      intro n
      simp only [maskPositionsFrom]
      split
      · exact List.Pairwise.cons
          (fun j hj =>
            Nat.lt_of_lt_of_le (Nat.lt_succ_self n) (maskPositionsFrom_le ts (n + 1) j hj))
          (ih (n + 1))
      · exact ih (n + 1)

theorem mem_maskPositionsFrom (ts : List Token) :
    ∀ n i : Nat, i ∈ maskPositionsFrom n ts ↔
      ∃ j : Nat, j < ts.length ∧ i = n + j ∧ (ts.getD j (Token.mk "")).text = "[MASK]" := by
  induction ts with
  | nil => intro n i; simp [maskPositionsFrom]
  | cons t ts ih =>
      intro n i
      simp only [maskPositionsFrom]
      by_cases h : t.text = "[MASK]"
      · rw [if_pos h]
        constructor
        · intro hi
          rcases List.mem_cons.mp hi with h0 | h1
          · exact ⟨0, Nat.succ_pos _, by omega, by simpa using h⟩
          · rcases (ih (n + 1) i).mp h1 with ⟨j, hj, hij, hmask⟩
            exact ⟨j + 1, by simpa using hj, by omega, by simpa using hmask⟩
        · rintro ⟨j, hj, hij, hmask⟩
          cases j with
          | zero => exact List.mem_cons.mpr (Or.inl (by omega))
          | succ j =>
              refine List.mem_cons.mpr (Or.inr ((ih (n + 1) i).mpr ?_))
              exact ⟨j, by simpa using hj, by omega, by simpa using hmask⟩
      · rw [if_neg h]
        rw [ih (n + 1) i]
        constructor
        · rintro ⟨j, hj, hij, hmask⟩
          exact ⟨j + 1, by simpa using hj, by omega, by simpa using hmask⟩
        · rintro ⟨j, hj, hij, hmask⟩
          cases j with
          | zero => exact absurd (by simpa using hmask) h
          | succ j => exact ⟨j, by simpa using hj, by omega, by simpa using hmask⟩

theorem mem_maskPositions (ts : List Token) (i : Nat) :
    i ∈ maskPositions ts ↔ i < ts.length ∧ (ts.getD i (Token.mk "")).text = "[MASK]" := by
  unfold maskPositions
  rw [mem_maskPositionsFrom]
  constructor
  · rintro ⟨j, hj, hij, hm⟩
    have hji : j = i := by omega
    subst hji
    exact ⟨hj, hm⟩
  · rintro ⟨hi, hm⟩
    exact ⟨i, hi, by omega, hm⟩

theorem maskPositions_pairwise (ts : List Token) :
    (maskPositions ts).Pairwise (· < ·) :=
  maskPositionsFrom_pairwise ts 0

theorem isEmpty_eq_false_of_maskPositions_ne_nil {ts : List Token}
    (h : maskPositions ts ≠ []) : ts.isEmpty = false := by
  cases ts with
  | nil => exact absurd rfl h
  | cons t ts => rfl

theorem maskPositions_isEmpty_eq_false {ts : List Token}
    (h : maskPositions ts ≠ []) : (maskPositions ts).isEmpty = false := by
  cases hmp : maskPositions ts with
  | nil => exact absurd hmp h
  | cons p ps => rfl

/-! ### Evaluation and inversion lemmas for `text_to_instance` -/

theorem effectiveTokens_some_of_ne_nil (r : MaskedLanguageModelingReader)
    (s : String) {ts : List Token} (h : ts.isEmpty = false) :
    effectiveTokens r s (some ts) = ts := by
  unfold effectiveTokens
  dsimp only
  rw [h]
  rfl

theorem text_to_instance_of_masks (r : MaskedLanguageModelingReader) (s : String)
    {ts : List Token} (hm : maskPositions ts ≠ []) (tg : List String) :
    r.text_to_instance s (some ts) (some tg) =
      if tg ≠ [] ∧ tg.length ≠ (maskPositions ts).length then
        Except.error (MLMError.targetCountMismatch (maskPositions ts).length tg.length)
      else Except.ok ⟨ts, maskPositions ts, tg.map Token.mk⟩ := by
  unfold MaskedLanguageModelingReader.text_to_instance
  rw [effectiveTokens_some_of_ne_nil r s (isEmpty_eq_false_of_maskPositions_ne_nil hm)]
  dsimp only
  rw [maskPositions_isEmpty_eq_false hm]
  rfl

theorem text_to_instance_none_targets (r : MaskedLanguageModelingReader) (s : String)
    {ts : List Token} (hm : maskPositions ts ≠ []) :
    r.text_to_instance s (some ts) none = Except.error MLMError.noneNotIterable := by
  unfold MaskedLanguageModelingReader.text_to_instance
  rw [effectiveTokens_some_of_ne_nil r s (isEmpty_eq_false_of_maskPositions_ne_nil hm)]
  dsimp only
  rw [maskPositions_isEmpty_eq_false hm]
  rfl

theorem text_to_instance_ok_inv (r : MaskedLanguageModelingReader) (s : String)
    (tsArg : Option (List Token)) (targets : Option (List String)) (inst : Instance)
    (h : r.text_to_instance s tsArg targets = Except.ok inst) :
    inst.tokens = effectiveTokens r s tsArg ∧
    inst.mask_positions = maskPositions inst.tokens ∧
    ∃ tg : List String, targets = some tg ∧ inst.target_ids = tg.map Token.mk := by
  unfold MaskedLanguageModelingReader.text_to_instance at h
  dsimp only at h
  split at h
  · exact Except.noConfusion h
  · split at h
    · split at h
      · exact Except.noConfusion h
      · rename_i tg _
        injection h with h
        subst h
        exact ⟨rfl, rfl, tg, rfl, rfl⟩
    · exact Except.noConfusion h

/-! ### Claim theorems -/

/-- C1: the claim says that for a token sequence containing `[MASK]` tokens
and with `targets` omitted, `text_to_instance` succeeds with empty
`target_ids`.  The code instead reaches line 82 with `targets = None` and
the comprehension `[Token(target) for target in targets]` raises
`TypeError: argument of type NoneType is not iterable`.  This theorem
evaluates the embedded code at the spec's own concrete scenario (masks at
positions 1 and 4, `targets` omitted) and shows the call fails. -/
theorem C1_theorem :
    defaultReader.text_to_instance ""
      (some [Token.mk "a", Token.mk "[MASK]", Token.mk "b", Token.mk "c", Token.mk "[MASK]"])
      none = Except.error MLMError.noneNotIterable := by
  rfl

/-- C2 counterexample: the claim says every supplied `targets` list whose
length differs from the mask count, including the empty list, triggers the
target-count-mismatch error.  But line 79 guards the check with Python
truthiness (`if targets and ...`), so a supplied empty list skips it: with
one `[MASK]` token and `targets = []` the call succeeds. -/
theorem C2_counterexample :
    defaultReader.text_to_instance "" (some [Token.mk "[MASK]"]) (some []) =
      Except.ok ⟨[Token.mk "[MASK]"], [0], []⟩ := by
  rfl

/-- C2 (amended): for every token sequence with a nonzero mask count and
every supplied NON-EMPTY targets list whose length differs from the mask
count, `text_to_instance` fails with the target-count-mismatch error
carrying the two counts. -/
theorem C2_theorem (r : MaskedLanguageModelingReader) (s : String)
    (ts : List Token) (targets : List String)
    (hm : maskPositions ts ≠ []) (hne : targets ≠ [])
    (hk : targets.length ≠ (maskPositions ts).length) :
    r.text_to_instance s (some ts) (some targets) =
      Except.error (MLMError.targetCountMismatch (maskPositions ts).length targets.length) := by
  rw [text_to_instance_of_masks r s hm targets]
  rw [if_pos ⟨hne, hk⟩]

/-- C2 witness: one `[MASK]` token and two targets fail with the
mismatch error reporting 1 mask and 2 targets. -/
theorem C2_witness :
    defaultReader.text_to_instance "" (some [Token.mk "[MASK]"]) (some ["a", "b"]) =
      Except.error (MLMError.targetCountMismatch 1 2) :=
  C2_theorem defaultReader "" [Token.mk "[MASK]"] ["a", "b"]
    (by decide) (by decide) (by decide)

/-- C3 counterexample: the claim says a supplied `tokens` argument,
including an empty sequence, makes the `sentence` value unobservable.  But
line 70 tests Python truthiness (`if not tokens`), so a supplied empty
list falls back to tokenizing `sentence`: two calls with `tokens = []`
and different sentences give different results. -/
theorem C3_counterexample :
    defaultReader.text_to_instance "a [MASK]" (some []) (some ["x"]) ≠
    defaultReader.text_to_instance "b [MASK]" (some []) (some ["x"]) := by
  decide

/-- C3 (amended): whenever a NON-EMPTY `tokens` sequence is supplied, the
result depends only on `tokens` and `targets`: two calls differing only in
`sentence` produce equal results. -/
theorem C3_theorem (r : MaskedLanguageModelingReader) (s₁ s₂ : String)
    (ts : List Token) (h : ts ≠ []) (targets : Option (List String)) :
    r.text_to_instance s₁ (some ts) targets = r.text_to_instance s₂ (some ts) targets := by
  have he : ts.isEmpty = false := by
    cases ts with
    | nil => exact absurd rfl h
    | cons t ts => rfl
  unfold MaskedLanguageModelingReader.text_to_instance
  rw [effectiveTokens_some_of_ne_nil r s₁ he, effectiveTokens_some_of_ne_nil r s₂ he]

/-- C3 witness: with the same non-empty `tokens` and `targets`, sentences
"foo" and "bar" give equal results. -/
theorem C3_witness :
    defaultReader.text_to_instance "foo" (some [Token.mk "[MASK]"]) (some ["x"]) =
      defaultReader.text_to_instance "bar" (some [Token.mk "[MASK]"]) (some ["x"]) :=
  C3_theorem defaultReader "foo" "bar" [Token.mk "[MASK]"] (by decide) (some ["x"])

/-- C4 counterexample: the claim quantifies over EVERY token sequence, but
a sequence with zero `[MASK]` tokens and a supplied `targets = []` (whose
length 0 equals the mask count 0) fails with the no-mask error instead of
succeeding: line 77's check precedes any use of `targets`. -/
theorem C4_counterexample :
    defaultReader.text_to_instance "" (some [Token.mk "a"]) (some []) =
      Except.error MLMError.noMask := by
  rfl

/-- C4 (amended): for every token sequence containing AT LEAST ONE
`[MASK]` token and every supplied targets list whose length equals the
mask count, `text_to_instance` succeeds and the returned `target_ids`,
read back as text, equals `targets` element-wise and in order. -/
theorem C4_theorem (r : MaskedLanguageModelingReader) (s : String)
    (ts : List Token) (targets : List String)
    (hm : maskPositions ts ≠ []) (hk : targets.length = (maskPositions ts).length) :
    r.text_to_instance s (some ts) (some targets) =
      Except.ok ⟨ts, maskPositions ts, targets.map Token.mk⟩ ∧
    (targets.map Token.mk).map Token.text = targets := by
  constructor
  · rw [text_to_instance_of_masks r s hm targets]
    rw [if_neg]
    intro hcontra
    exact hcontra.2 hk
  · rw [List.map_map]
    have hcomp : (Token.text ∘ Token.mk) = id := funext fun t => rfl
    rw [hcomp, List.map_id]

/-- C4 witness: one `[MASK]` token and one target succeed, and the
target_ids text round-trips. -/
theorem C4_witness :
    defaultReader.text_to_instance "" (some [Token.mk "[MASK]"]) (some ["This"]) =
      Except.ok ⟨[Token.mk "[MASK]"], [0], [Token.mk "This"]⟩ ∧
    (["This"].map Token.mk).map Token.text = ["This"] :=
  C4_theorem defaultReader "" [Token.mk "[MASK]"] ["This"] (by decide) (by decide)

/-- C5 counterexample: the claim quantifies over every token sequence with
zero `[MASK]` tokens, including the empty one.  But a supplied empty
`tokens` sequence is falsy at line 70 and is replaced by the tokenizer's
output on `sentence`; with a mask-bearing sentence the call succeeds
instead of raising the no-mask error. -/
theorem C5_counterexample :
    defaultReader.text_to_instance "x [MASK]" (some []) (some ["y"]) =
      Except.ok ⟨[Token.mk "x", Token.mk "[MASK]"], [1], [Token.mk "y"]⟩ := by
  decide

/-- C5 (amended): whenever the EFFECTIVE token sequence (the supplied
`tokens` when non-empty, otherwise the tokenizer's output on `sentence`)
contains zero `[MASK]` tokens, `text_to_instance` fails with the no-mask
error, regardless of whether `targets` is supplied and regardless of its
length. -/
theorem C5_theorem (r : MaskedLanguageModelingReader) (s : String)
    (tsArg : Option (List Token)) (targets : Option (List String))
    (h : maskPositions (effectiveTokens r s tsArg) = []) :
    r.text_to_instance s tsArg targets = Except.error MLMError.noMask := by
  unfold MaskedLanguageModelingReader.text_to_instance
  dsimp only
  rw [h]
  rfl

/-- C5 witness: a supplied non-empty mask-free token sequence fails with
the no-mask error even though a mismatched targets list is supplied. -/
theorem C5_witness :
    defaultReader.text_to_instance "" (some [Token.mk "a"]) (some ["t1", "t2"]) =
      Except.error MLMError.noMask :=
  C5_theorem defaultReader "" (some [Token.mk "a"]) (some ["t1", "t2"]) (by decide)

/-- Characterization of the `mask_positions` field of a returned bundle:
the positions are strictly increasing, and a raw zero-based index `i` into
the bundle's `tokens` is listed exactly when it is in range and the token
there has text `"[MASK]"`. -/
def maskPositionsCorrect (inst : Instance) : Prop :=
  inst.mask_positions.Pairwise (· < ·) ∧
  ∀ i : Nat, i ∈ inst.mask_positions ↔
    i < inst.tokens.length ∧ (inst.tokens.getD i (Token.mk "")).text = "[MASK]"

/-- C6: whenever `text_to_instance` returns a bundle, `mask_positions` is
exactly the left-to-right ordered list of raw zero-based indices into the
returned `tokens` at which the token text equals `"[MASK]"`: every listed
index points at a `[MASK]` token, every occurrence is listed, and the
indices are strictly increasing and not renumbered. -/
theorem C6_theorem (r : MaskedLanguageModelingReader) (s : String)
    (tsArg : Option (List Token)) (targets : Option (List String)) (inst : Instance)
    (h : r.text_to_instance s tsArg targets = Except.ok inst) :
    maskPositionsCorrect inst := by
  obtain ⟨-, hmp, -⟩ := text_to_instance_ok_inv r s tsArg targets inst h
  unfold maskPositionsCorrect
  rw [hmp]
  exact ⟨maskPositions_pairwise _, fun i => mem_maskPositions _ i⟩

/-- C6 witness: the bundle returned for tokens `a [MASK]` with one target
has a correct `mask_positions` field. -/
theorem C6_witness :
    maskPositionsCorrect ⟨[Token.mk "a", Token.mk "[MASK]"], [1], [Token.mk "y"]⟩ :=
  C6_theorem defaultReader "" (some [Token.mk "a", Token.mk "[MASK]"]) (some ["y"])
    ⟨[Token.mk "a", Token.mk "[MASK]"], [1], [Token.mk "y"]⟩ rfl

/-- C7: with the default configuration (whitespace-only tokenizer), the
call with `sentence = "This is a [MASK] token ."` and `targets = ["This"]`
succeeds and returns the whitespace-split tokens, `mask_positions = [3]`
and `target_ids = ["This"]`. -/
theorem C7_theorem :
    defaultReader.text_to_instance "This is a [MASK] token ." none (some ["This"]) =
      Except.ok ⟨[Token.mk "This", Token.mk "is", Token.mk "a", Token.mk "[MASK]",
                  Token.mk "token", Token.mk "."], [3], [Token.mk "This"]⟩ := by
  decide

/-- C8: for every file path, `_read` fails with the not-implemented error
and produces no examples, and that error is distinct from both the
no-mask error and every target-count-mismatch error. -/
theorem C8_theorem (r : MaskedLanguageModelingReader) (file_path : String) :
    r._read file_path = Except.error MLMError.notImplemented ∧
    MLMError.notImplemented ≠ MLMError.noMask ∧
    ∀ m k : Nat, MLMError.notImplemented ≠ MLMError.targetCountMismatch m k := by
  refine ⟨rfl, by decide, ?_⟩
  intro m k hc
  exact MLMError.noConfusion hc

/-- C9: a supplied empty `tokens` sequence is treated exactly as an absent
one: the call equals the call with `tokens` omitted, and the effective
token sequence is the configured tokenizer's output on `sentence`. -/
theorem C9_theorem (r : MaskedLanguageModelingReader) (s : String)
    (targets : Option (List String)) :
    r.text_to_instance s (some []) targets = r.text_to_instance s none targets ∧
    effectiveTokens r s (some []) = r.tokenizer s :=
  ⟨rfl, rfl⟩

/-- C10: a supplied EMPTY `targets` list skips the target-count validation:
for every token sequence with a nonzero number of `[MASK]` tokens, the call
with `targets = []` raises no error and returns the bundle with empty
`target_ids` and non-empty `mask_positions`. -/
theorem C10_theorem (r : MaskedLanguageModelingReader) (s : String)
    (ts : List Token) (hm : maskPositions ts ≠ []) :
    r.text_to_instance s (some ts) (some []) =
      Except.ok ⟨ts, maskPositions ts, []⟩ ∧
    maskPositions ts ≠ [] := by
  refine ⟨?_, hm⟩
  rw [text_to_instance_of_masks r s hm []]
  rw [if_neg fun hcontra => hcontra.1 rfl]
  rfl

/-- C10 witness: tokens `[MASK] b` with `targets = []` succeed with
`mask_positions = [0]` and empty `target_ids`. -/
theorem C10_witness :
    defaultReader.text_to_instance "" (some [Token.mk "[MASK]", Token.mk "b"]) (some []) =
      Except.ok ⟨[Token.mk "[MASK]", Token.mk "b"], [0], []⟩ ∧
    maskPositions [Token.mk "[MASK]", Token.mk "b"] ≠ [] :=
  C10_theorem defaultReader "" [Token.mk "[MASK]", Token.mk "b"] (by decide)
